import Mathlib

/-!
# Verification of the form-weaver form/field/page core

Shallow embedding of the data model and operations of the form-builder
repository:

* `src/types/form.ts` — the `FieldType`, `FormField`, `Form`, `FormResponse`
  and `DashboardStats` shapes;
* `src/contexts/FormContext.tsx` — the form store (`createForm`, `updateForm`,
  `deleteForm`, `addField`, `updateField`, `removeField`, `reorderFields`,
  `toggleFormStatus`, `submitResponse`, `stats`);
* `src/pages/FormBuilder.tsx` — the builder's derived `totalPages` and the
  "Remove Page" click handler;
* `src/pages/PublicForm.tsx` — the respondent flow: derived pages,
  `validateCurrentPage`, `handleNext`, `handlePrev`, `updateAnswer`, and the
  not-found / unavailable guards.

JavaScript `Date` values are modelled as natural numbers (milliseconds),
`Record<string, _>` objects as association lists with first-match lookup and
replace-or-append assignment, and `Partial<T>` update objects as structures of
`Option` fields.
-/

namespace FormWeaver

/-- Field types, from `src/types/form.ts` (`FieldType`). -/
inductive FieldType where
  | text
  | textarea
  | email
  | phone
  | number
  | password
  | dropdown
  | radio
  | checkbox
  | date
  | file
  | first_name
  | last_name
  deriving DecidableEq, Repr

/-- One entry of a choice field's `options` array (`FieldOption`). -/
structure FieldOption where
  id : String
  label : String
  value : String
  deriving DecidableEq, Repr

/-- Optional per-field validation rules (`FormField.validationRules`). -/
structure ValidationRules where
  minLength : Option Nat := none
  maxLength : Option Nat := none
  pattern : Option String := none
  min : Option Int := none
  max : Option Int := none
  deriving DecidableEq, Repr

/-- One field definition, from `src/types/form.ts` (`FormField`). -/
structure FormField where
  id : String
  type : FieldType
  label : String
  placeholder : Option String := none
  required : Bool
  options : Option (List FieldOption) := none
  validationRules : Option ValidationRules := none
  pageNumber : Nat
  deriving DecidableEq, Repr

/-- Form publish status, the `'active' | 'inactive'` union in `Form.status`. -/
inductive FormStatus where
  | active
  | inactive
  deriving DecidableEq, Repr

/-- Form-level settings (`FormSettings`). -/
structure FormSettings where
  emailNotifications : Bool
  redirectUrl : Option String := none
  thankYouMessage : String
  expirationDate : Option Nat := none
  deriving DecidableEq, Repr

/-- One form, from `src/types/form.ts` (`Form`). -/
structure Form where
  id : String
  title : String
  description : Option String := none
  status : FormStatus
  fields : List FormField
  settings : FormSettings
  createdBy : String
  createdAt : Nat
  updatedAt : Nat
  deriving DecidableEq, Repr

/-- A submitted answer value.  The respondent flow stores either a string
(text-like inputs, dropdown, radio, ISO date) or a list of strings
(checkbox selections, uploaded file names) under each field id. -/
inductive Answer where
  | str (s : String)
  | list (l : List String)
  deriving DecidableEq, Repr

/-- One respondent submission (`FormResponse`). -/
structure FormResponse where
  id : String
  formId : String
  answers : List (String × Answer)
  files : Option (List String) := none
  submittedAt : Nat
  deriving DecidableEq, Repr

/-- Derived dashboard statistics (`DashboardStats`). -/
structure DashboardStats where
  totalForms : Nat
  activeForms : Nat
  inactiveForms : Nat
  totalResponses : Nat
  deriving DecidableEq, Repr

/-- The form store's state: the three `useState` cells of `FormProvider`
(`forms`, `currentForm`, `responses`) in `src/contexts/FormContext.tsx`. -/
structure Store where
  forms : List Form
  currentForm : Option Form := none
  responses : List FormResponse
  deriving DecidableEq, Repr

/-! ## Form store operations (`src/contexts/FormContext.tsx`) -/

/-- The derived `stats` object (FormContext.tsx lines 96–101). -/
def statsOf (st : Store) : DashboardStats :=
  { totalForms := st.forms.length
    activeForms := (st.forms.filter (fun f => f.status = FormStatus.active)).length
    inactiveForms := (st.forms.filter (fun f => f.status = FormStatus.inactive)).length
    totalResponses := st.responses.length }

/-- `createForm(title, description?)`: builds a new inactive form with empty
fields and default settings and appends it (FormContext.tsx lines 103–120).
`now` stands for `Date.now()`; the generated id is `Date.now().toString()`. -/
def createForm (now : Nat) (title : String) (description : Option String)
    (st : Store) : Form × Store :=
  let newForm : Form :=
    { id := Nat.repr now
      title := title
      description := description
      status := FormStatus.inactive
      fields := []
      settings :=
        { emailNotifications := false
          thankYouMessage := "Thank you for your submission!" }
      createdBy := "1"
      createdAt := now
      updatedAt := now }
  (newForm, { st with forms := st.forms ++ [newForm] })

/-- The subset of `Partial<Form>` actually passed to `updateForm` by the
builder code paths we verify: a replacement field array and/or status. -/
structure FormUpdates where
  fields : Option (List FormField) := none
  status : Option FormStatus := none
  deriving DecidableEq, Repr

/-- `{ ...f, ...updates, updatedAt: new Date() }`. -/
def applyFormUpdates (f : Form) (u : FormUpdates) (now : Nat) : Form :=
  { f with
    fields := u.fields.getD f.fields
    status := u.status.getD f.status
    updatedAt := now }

/-- `updateForm(formId, updates)` (FormContext.tsx lines 122–129): merges the
updates into the matching form and mirrors the merge into `currentForm` when
it points at the same form. -/
def updateForm (now : Nat) (formId : String) (u : FormUpdates) (st : Store) :
    Store :=
  { st with
    forms := st.forms.map (fun f =>
      if f.id = formId then applyFormUpdates f u now else f)
    currentForm :=
      match st.currentForm with
      | some cf =>
          if cf.id = formId then some (applyFormUpdates cf u now) else some cf
      | none => none }

/-- `deleteForm(formId)` (FormContext.tsx lines 131–136): filters the form out
of the collection and clears `currentForm` when it pointed at that form.
The `responses` collection is not touched. -/
def deleteForm (formId : String) (st : Store) : Store :=
  { st with
    forms := st.forms.filter (fun f => f.id ≠ formId)
    currentForm :=
      match st.currentForm with
      | some cf => if cf.id = formId then none else some cf
      | none => none }

/-- `addField(field)` (FormContext.tsx lines 138–142): appends to the current
form's field array; no-op when there is no current form. -/
def addField (now : Nat) (field : FormField) (st : Store) : Store :=
  match st.currentForm with
  | none => st
  | some cf => updateForm now cf.id { fields := some (cf.fields ++ [field]) } st

/-- The subset of `Partial<FormField>` used by the verified code paths. -/
structure FieldUpdates where
  label : Option String := none
  required : Option Bool := none
  pageNumber : Option Nat := none
  deriving DecidableEq, Repr

/-- `{ ...f, ...updates }` for a field. -/
def applyFieldUpdates (f : FormField) (u : FieldUpdates) : FormField :=
  { f with
    label := u.label.getD f.label
    required := u.required.getD f.required
    pageNumber := u.pageNumber.getD f.pageNumber }

/-- The body of `updateField(fieldId, updates)` (FormContext.tsx lines
144–150) with the captured `currentForm` snapshot made explicit: the new field
array is computed from `cf.fields` (the render-time closure value), not from
the store state the functional `setForms` update is applied to.  Within one
React event handler every `updateField` call sees the same snapshot `cf`. -/
def updateFieldWith (now : Nat) (cf : Form) (fieldId : String)
    (u : FieldUpdates) (st : Store) : Store :=
  updateForm now cf.id
    { fields := some (cf.fields.map (fun f =>
        if f.id = fieldId then applyFieldUpdates f u else f)) } st

/-- The exported `updateField` as called with a fresh snapshot (the first call
of a handler): reads the current form from the store itself. -/
def updateField (now : Nat) (fieldId : String) (u : FieldUpdates)
    (st : Store) : Store :=
  match st.currentForm with
  | none => st
  | some cf => updateFieldWith now cf fieldId u st

/-- `removeField(fieldId)` (FormContext.tsx lines 152–156). -/
def removeField (now : Nat) (fieldId : String) (st : Store) : Store :=
  match st.currentForm with
  | none => st
  | some cf =>
      updateForm now cf.id
        { fields := some (cf.fields.filter (fun f => f.id ≠ fieldId)) } st

/-- `reorderFields(startIndex, endIndex)` on a plain list (FormContext.tsx
lines 158–164): `splice(startIndex, 1)` removes the element, then
`splice(endIndex, 0, removed)` reinserts it.  When `startIndex` is not a valid
position the source would splice `undefined` in; the claims only concern valid
indices, where the `none` branch is unreachable. -/
def reorderFields {α : Type} (l : List α) (startIndex endIndex : Nat) :
    List α :=
  match l.get? startIndex with
  | none => l
  | some removed => (l.eraseIdx startIndex).insertIdx endIndex removed

/-- `toggleFormStatus(formId)` (FormContext.tsx lines 166–171). -/
def toggleFormStatus (now : Nat) (formId : String) (st : Store) : Store :=
  match st.forms.find? (fun f => f.id = formId) with
  | some form =>
      updateForm now formId
        { status :=
            some (if form.status = FormStatus.active
                  then FormStatus.inactive else FormStatus.active) } st
  | none => st

/-- `submitResponse(formId, answers, files?)` (FormContext.tsx lines 173–182):
unconditionally appends a new response whose id is `Date.now().toString()`
and whose timestamp is `Date.now()`; nothing else in the store changes and the
answers are not validated. -/
def submitResponse (now : Nat) (formId : String)
    (answers : List (String × Answer)) (files : Option (List String))
    (st : Store) : Store :=
  { st with
    responses := st.responses ++
      [{ id := Nat.repr now
         formId := formId
         answers := answers
         files := files
         submittedAt := now }] }

/-- `getFormById(formId)` (FormContext.tsx lines 184–186). -/
def getFormById (formId : String) (st : Store) : Option Form :=
  st.forms.find? (fun f => f.id = formId)

/-! ## Builder derived values and the Remove Page handler
(`src/pages/FormBuilder.tsx`) -/

/-- The builder's derived `totalPages` (FormBuilder.tsx lines 607–610):
`fields.length ? Math.max(...fields.map(f => f.pageNumber), 1) : 1`.
Folding `max` from `1` is `Math.max` over the page numbers with `1` spliced
into the argument list. -/
def builderTotalPages (fields : List FormField) : Nat :=
  if fields.isEmpty then 1
  else (fields.map (fun f => f.pageNumber)).foldl max 1

/-- The builder's derived `currentPageFields` (FormBuilder.tsx line 613). -/
def builderCurrentPageFields (fields : List FormField) (currentPage : Nat) :
    List FormField :=
  fields.filter (fun f => f.pageNumber = currentPage)

/-- Result of one click on the builder's "Remove Page" button: the store after
the handler, the builder's `currentPage` after the handler, and the title of
the destructive toast when the removal was rejected. -/
structure RemovePageOutcome where
  store : Store
  builderPage : Nat
  toastError : Option String
  deriving DecidableEq, Repr

/-- The "Remove Page" `onClick` handler (FormBuilder.tsx lines 1094–1114).

If the active page still has fields, it shows the "Cannot remove page" toast
and returns without touching anything.  Otherwise it iterates over
`currentForm.fields` and calls `updateField(field.id, { pageNumber:
field.pageNumber - 1 })` for every field above the removed page, then clamps
`currentPage` down by one.

React semantics are modelled faithfully: every `updateField` call in the loop
closes over the same render snapshot `cf` and rebuilds the complete field
array from `cf.fields` (see `updateFieldWith`), while its functional
`setForms` update is applied to the accumulated store.  Each later call
therefore overwrites the field array installed by the earlier ones. -/
def removePageClick (now : Nat) (currentPage : Nat) (st : Store) :
    RemovePageOutcome :=
  let currentPageFields :=
    match st.currentForm with
    | some cf => builderCurrentPageFields cf.fields currentPage
    | none => []
  if currentPageFields.length > 0 then
    { store := st, builderPage := currentPage
      toastError := some "Cannot remove page" }
  else
    let st' :=
      match st.currentForm with
      | none => st
      | some cf =>
          cf.fields.foldl (fun acc f =>
            if currentPage < f.pageNumber then
              updateFieldWith now cf f.id
                { pageNumber := some (f.pageNumber - 1) } acc
            else acc) st
    { store := st', builderPage := max 1 (currentPage - 1), toastError := none }

/-! ## Respondent flow (`src/pages/PublicForm.tsx`) -/

/-- `[...new Set(xs)]` with the elements already inserted carried in `seen`:
JavaScript `Set` deduplication keeps the first occurrence of each element. -/
def jsSetDedupAux (seen : List Nat) : List Nat → List Nat
  | [] => []
  | x :: xs =>
      if x ∈ seen then jsSetDedupAux seen xs
      else x :: jsSetDedupAux (x :: seen) xs

/-- `[...new Set(xs)]`: JavaScript `Set` deduplication, keeping the first
occurrence of each element. -/
def jsSetDedup (l : List Nat) : List Nat :=
  jsSetDedupAux [] l

/-- Lexicographic comparison of character lists by code point. -/
def charListLt : List Char → List Char → Bool
  | [], [] => false
  | [], _ :: _ => true
  | _ :: _, [] => false
  | a :: as, b :: bs =>
      if a < b then true else if b < a then false else charListLt as bs

/-- The default JavaScript `Array.prototype.sort()` comparator: elements are
compared as strings, code unit by code unit. -/
def jsLtNat (a b : Nat) : Bool :=
  charListLt (Nat.repr a).toList (Nat.repr b).toList

/-- Insertion step of a stable sort under `jsLtNat`. -/
def jsSortInsert (x : Nat) : List Nat → List Nat
  | [] => [x]
  | y :: ys => if jsLtNat x y then x :: y :: ys else y :: jsSortInsert x ys

/-- `.sort()` with the default (string) comparator, as a stable insertion
sort.  Only the length of the result matters to the verified properties. -/
def jsSort (l : List Nat) : List Nat :=
  l.foldr jsSortInsert []

/-- The respondent flow's derived `pages` (PublicForm.tsx line 100):
`[...new Set(form.fields.map(f => f.pageNumber))].sort()`. -/
def publicPages (fields : List FormField) : List Nat :=
  jsSort (jsSetDedup (fields.map (fun f => f.pageNumber)))

/-- The respondent flow's derived `totalPages` (PublicForm.tsx line 102):
`pages.length || 1` — the number of distinct page numbers, with `0` replaced
by `1` through JavaScript falsiness. -/
def publicTotalPages (fields : List FormField) : Nat :=
  if (publicPages fields).length = 0 then 1 else (publicPages fields).length

/-- The respondent flow's derived `currentFields` (PublicForm.tsx line 101). -/
def publicCurrentFields (fields : List FormField) (currentPage : Nat) :
    List FormField :=
  fields.filter (fun f => f.pageNumber = currentPage)

/-- First-match lookup in an answers object, `answers[fieldId]`. -/
def lookupAnswer (answers : List (String × Answer)) (fieldId : String) :
    Option Answer :=
  (answers.find? (fun p => p.1 = fieldId)).map (fun p => p.2)

/-- JavaScript truthiness of `answers[fieldId]`: `undefined` and the empty
string are falsy; arrays (checkbox selections, file-name lists) are truthy
even when empty. -/
def answerTruthy : Option Answer → Bool
  | none => false
  | some (Answer.str s) => !(s = "")
  | some (Answer.list _) => true

/-- JavaScript string coercion of an answer value, as applied by
`emailRegex.test(answers[field.id])`: arrays join with a comma. -/
def answerString : Answer → String
  | Answer.str s => s
  | Answer.list l => String.intercalate "," l

/-- Membership of a character in the JavaScript `\s` class (the code points
relevant to this code base). -/
def jsSpaceChar (c : Char) : Bool :=
  c = ' ' || c = '\t' || c = '\n' || c = '\r' ||
  c = Char.ofNat 11 || c = Char.ofNat 12 || c = Char.ofNat 160

/-- A character admissible in the `[^\s@]` classes of the email pattern. -/
def validEmailChar (c : Char) : Bool :=
  !(jsSpaceChar c || c = '@')

/-- The domain part of the pattern, `[^\s@]+\.[^\s@]+`: a `'.'` occurs at an
interior position (a nonempty run before it and a nonempty run after it). -/
def hasInteriorDot (l : List Char) : Bool :=
  (List.range l.length).any (fun i =>
    decide (0 < i) && decide (i + 1 < l.length) && (l.getD i ' ' = '.'))

/-- Split a character list at every occurrence of the separator character,
like `String.prototype.split` with a one-character separator. -/
def splitAtChar (c : Char) : List Char → List (List Char)
  | [] => [[]]
  | x :: xs =>
      let r := splitAtChar c xs
      if x = c then [] :: r
      else
        match r with
        | [] => [[x]]
        | h :: t => (x :: h) :: t

/-- `emailRegex.test(value)` for `/^[^\s@]+@[^\s@]+\.[^\s@]+$/`
(PublicForm.tsx line 113).  Because `[^\s@]` excludes `'@'`, a string matches
the anchored pattern exactly when it splits at a unique `'@'` into a nonempty
local part and a nonempty domain, all characters outside `\s` and `'@'`, with
a `'.'` strictly inside the domain. -/
def emailRegexTest (s : String) : Bool :=
  match splitAtChar '@' s.toList with
  | [localPart, domain] =>
    !localPart.isEmpty && localPart.all validEmailChar &&
    !domain.isEmpty && domain.all validEmailChar &&
    hasInteriorDot domain
  | _ => false

/-- First-match lookup in the `errors` object, `errors[fieldId]`. -/
def lookupError (errors : List (String × String)) (fieldId : String) :
    Option String :=
  (errors.find? (fun p => p.1 = fieldId)).map (fun p => p.2)

/-- JavaScript object assignment `errors[fieldId] = msg`: replaces the value
of an existing key in place, otherwise appends the new key (string keys keep
insertion order). -/
def setError (errors : List (String × String)) (fieldId msg : String) :
    List (String × String)  :=
  match errors with
  | [] => [(fieldId, msg)]
  | p :: rest =>
      if p.1 = fieldId then (fieldId, msg) :: rest
      else p :: setError rest fieldId msg

/-- The body of the `currentFields.forEach` callback inside
`validateCurrentPage` (PublicForm.tsx lines 108–118): the required check
first, then the email-shape check, each assigning into `newErrors`. -/
def validateFieldStep (answers : List (String × Answer))
    (errors : List (String × String)) (field : FormField) :
    List (String × String) :=
  let errors1 :=
    if field.required && !(answerTruthy (lookupAnswer answers field.id)) then
      setError errors field.id (field.label ++ " is required")
    else errors
  if field.type = FieldType.email &&
      answerTruthy (lookupAnswer answers field.id) then
    if !(emailRegexTest
        (answerString ((lookupAnswer answers field.id).getD (Answer.str "")))) then
      setError errors1 field.id "Please enter a valid email address"
    else errors1
  else errors1

/-- The `newErrors` object built by `validateCurrentPage` (PublicForm.tsx
lines 105–122): one pass over the fields of the current page, collecting
every error. -/
def validateCurrentPage (fields : List FormField) (currentPage : Nat)
    (answers : List (String × Answer)) : List (String × String) :=
  (publicCurrentFields fields currentPage).foldl (validateFieldStep answers) []

/-- The respondent-side component state relevant to navigation: the
`currentPage`, `answers`, `errors` and `isSubmitted` `useState` cells. -/
structure FlowState where
  currentPage : Nat
  answers : List (String × Answer)
  errors : List (String × String)
  isSubmitted : Bool
  deriving DecidableEq, Repr

/-- Initial respondent state: `currentPage = 1`, empty answers and errors. -/
def initFlowState : FlowState :=
  { currentPage := 1, answers := [], errors := [], isSubmitted := false }

/-- A call of the store's `submitResponse` issued by the flow. -/
structure SubmitEvent where
  formId : String
  answers : List (String × Answer)
  deriving DecidableEq, Repr

/-- `handleNext` (PublicForm.tsx lines 124–138) together with the
`handleSubmit` it calls on the last page (lines 146–160).
`validateCurrentPage` stores `newErrors` unconditionally; advancing or
submitting happens only when the page validated cleanly, and a submission
emits one `submitResponse(form.id, answers)` event and sets `isSubmitted`. -/
def handleNext (form : Form) (st : FlowState) : FlowState × Option SubmitEvent :=
  let newErrors := validateCurrentPage form.fields st.currentPage st.answers
  if newErrors.isEmpty then
    if st.currentPage < publicTotalPages form.fields then
      ({ st with currentPage := st.currentPage + 1, errors := newErrors }, none)
    else
      ({ st with errors := newErrors, isSubmitted := true },
        some { formId := form.id, answers := st.answers })
  else
    ({ st with errors := newErrors }, none)

/-- `handlePrev` (PublicForm.tsx lines 140–144). -/
def handlePrev (st : FlowState) : FlowState :=
  if st.currentPage > 1 then { st with currentPage := st.currentPage - 1 }
  else st

/-- JavaScript object assignment for answers, `{ ...prev, [fieldId]: v }`. -/
def setAnswer (answers : List (String × Answer)) (fieldId : String)
    (v : Answer) : List (String × Answer) :=
  match answers with
  | [] => [(fieldId, v)]
  | p :: rest =>
      if p.1 = fieldId then (fieldId, v) :: rest
      else p :: setAnswer rest fieldId v

/-- `updateAnswer` (PublicForm.tsx lines 162–171): stores the value and
optimistically deletes any existing error for that field. -/
def updateAnswer (st : FlowState) (fieldId : String) (v : Answer) : FlowState :=
  { st with
    answers := setAnswer st.answers fieldId v
    errors :=
      if (lookupError st.errors fieldId).isSome then
        st.errors.filter (fun p => p.1 ≠ fieldId)
      else st.errors }

/-- The state of one respondent session, as decided by the guards at the top
of the `PublicForm` component (PublicForm.tsx lines 50–77): missing form →
not-found page, inactive form → unavailable page, otherwise the interactive
flow. -/
inductive SessionState where
  | notFound
  | unavailable
  | flow (st : FlowState)
  deriving DecidableEq, Repr

/-- Session initialization: the not-found guard (line 50) and the inactive
guard (line 65) run before any flow state is used. -/
def initSession (formLookup : Option Form) : SessionState :=
  match formLookup with
  | none => SessionState.notFound
  | some f =>
      if f.status = FormStatus.inactive then SessionState.unavailable
      else SessionState.flow initFlowState

/-- The respondent's possible interactions. -/
inductive RespondentAction where
  | next
  | prev
  | setAnswer (fieldId : String) (v : Answer)
  deriving DecidableEq, Repr

/-- One user action against the session.  The not-found and unavailable pages
render no form controls, so actions only have an effect in the `flow` state. -/
def sessionStep (formLookup : Option Form) (s : SessionState)
    (a : RespondentAction) : SessionState × Option SubmitEvent :=
  match s, formLookup with
  | SessionState.flow st, some f =>
      match a with
      | RespondentAction.next =>
          let r := handleNext f st
          (SessionState.flow r.1, r.2)
      | RespondentAction.prev => (SessionState.flow (handlePrev st), none)
      | RespondentAction.setAnswer fieldId v =>
          (SessionState.flow (updateAnswer st fieldId v), none)
  | s, _ => (s, none)

/-- Run a list of respondent actions, accumulating the emitted
`submitResponse` calls in order. -/
def runSession (formLookup : Option Form) (s : SessionState)
    (acts : List RespondentAction) : SessionState × List SubmitEvent :=
  acts.foldl (fun p a =>
    let r := sessionStep formLookup p.1 a
    (r.1, p.2 ++ r.2.toList)) (s, [])

/-- Deliver the emitted submit events to the store. -/
def applySubmitEvents (now : Nat) (st : Store) (evs : List SubmitEvent) :
    Store :=
  evs.foldl (fun acc ev => submitResponse now ev.formId ev.answers none acc) st

/-! ## Concrete example inputs used as witnesses and counterexamples -/

/-- Default settings shared by the example forms. -/
def exSettings : FormSettings :=
  { emailNotifications := false, thankYouMessage := "Thanks" }

/-- A single field sitting on page 2 (page 1 left empty), as the builder
produces after "Add Page" followed by adding one field. -/
def exFieldC1 : FormField :=
  { id := "f1", type := FieldType.text, label := "Only field",
    required := false, pageNumber := 2 }

def exFieldC2a : FormField :=
  { id := "f1", type := FieldType.text, label := "A", required := false,
    pageNumber := 1 }

def exFieldC2b : FormField :=
  { id := "f3", type := FieldType.text, label := "B", required := false,
    pageNumber := 3 }

def exFieldC2c : FormField :=
  { id := "f4", type := FieldType.text, label := "C", required := false,
    pageNumber := 4 }

/-- A form with fields on pages 1, 3 and 4; page 2 is empty. -/
def exFormC2 : Form :=
  { id := "F2", title := "T", status := FormStatus.active,
    fields := [exFieldC2a, exFieldC2b, exFieldC2c], settings := exSettings,
    createdBy := "1", createdAt := 0, updatedAt := 0 }

def exStoreC2 : Store :=
  { forms := [exFormC2], currentForm := some exFormC2, responses := [] }

def exFormC3 : Form :=
  { id := "F3", title := "T", status := FormStatus.active,
    fields :=
      [{ id := "f1", type := FieldType.text, label := "A", required := false,
         pageNumber := 1 },
       { id := "f2", type := FieldType.text, label := "B", required := false,
         pageNumber := 2 }],
    settings := exSettings, createdBy := "1", createdAt := 0, updatedAt := 0 }

def exStoreC3 : Store :=
  { forms := [exFormC3], currentForm := some exFormC3, responses := [] }

def exFieldsC4 : List FormField :=
  [{ id := "a", type := FieldType.text, label := "a", required := false,
     pageNumber := 1 },
   { id := "b", type := FieldType.textarea, label := "b", required := true,
     pageNumber := 1 },
   { id := "c", type := FieldType.email, label := "c", required := false,
     pageNumber := 2 }]

def exFieldC5 : FormField :=
  { id := "f1", type := FieldType.text, label := "Name", required := true,
    pageNumber := 1 }

def exFormC5 : Form :=
  { id := "F5", title := "T", status := FormStatus.active,
    fields := [exFieldC5], settings := exSettings, createdBy := "1",
    createdAt := 0, updatedAt := 0 }

/-- A required checkbox field: its answer is an array of selected option
values, and an emptied selection leaves `answers[id] = []`. -/
def exFieldC5cb : FormField :=
  { id := "c1", type := FieldType.checkbox, label := "Pick one",
    required := true,
    options := some [{ id := "opt1", label := "Option 1", value := "option1" }],
    pageNumber := 1 }

def exFieldC5b : FormField :=
  { id := "f2", type := FieldType.text, label := "B", required := false,
    pageNumber := 2 }

/-- Two-page form whose first page holds only the required checkbox. -/
def exFormC5cb : Form :=
  { id := "F5b", title := "T", status := FormStatus.active,
    fields := [exFieldC5cb, exFieldC5b], settings := exSettings,
    createdBy := "1", createdAt := 0, updatedAt := 0 }

/-- Respondent state on page 1 after checking and unchecking the required
checkbox: the stored answer is the empty array. -/
def exFlowC5 : FlowState :=
  { currentPage := 1, answers := [("c1", Answer.list [])], errors := [],
    isSubmitted := false }

def exFormC6 : Form :=
  { id := "F6", title := "T", status := FormStatus.inactive, fields := [],
    settings := exSettings, createdBy := "1", createdAt := 0, updatedAt := 0 }

def exStoreC6 : Store :=
  { forms := [exFormC6], currentForm := none, responses := [] }

def exStoreC7 : Store :=
  { forms := [], currentForm := none, responses := [] }

def exFieldC8 : FormField :=
  { id := "e1", type := FieldType.email, label := "Email", required := false,
    pageNumber := 1 }

def exFormC8 : Form :=
  { id := "F8", title := "T", status := FormStatus.active,
    fields := [exFieldC8], settings := exSettings, createdBy := "1",
    createdAt := 0, updatedAt := 0 }

def exFormC9 : Form :=
  { id := "1", title := "T1", status := FormStatus.active, fields := [],
    settings := exSettings, createdBy := "1", createdAt := 0, updatedAt := 0 }

def exFormC9b : Form :=
  { id := "2", title := "T2", status := FormStatus.inactive, fields := [],
    settings := exSettings, createdBy := "1", createdAt := 0, updatedAt := 0 }

def exRespC9 : FormResponse :=
  { id := "r1", formId := "1", answers := [("f1", Answer.str "x")],
    submittedAt := 0 }

def exStoreC9 : Store :=
  { forms := [exFormC9, exFormC9b], currentForm := some exFormC9,
    responses := [exRespC9] }

/-! ## Helper lemmas -/

theorem le_foldl_max (l : List Nat) (a : Nat) : a ≤ l.foldl max a := by
  induction l generalizing a with
  | nil => exact Nat.le_refl a
  | cons x xs ih => exact Nat.le_trans (Nat.le_max_left a x) (ih (max a x))

theorem mem_le_foldl_max (l : List Nat) (a : Nat) :
    ∀ x ∈ l, x ≤ l.foldl max a := by
  induction l generalizing a with
  | nil => intro x hx; cases hx
  | cons y ys ih =>
      intro x hx
      rcases List.mem_cons.mp hx with rfl | h
      · exact Nat.le_trans (Nat.le_max_right a x) (le_foldl_max ys (max a x))
      · exact ih (max a y) x h

theorem foldl_max_eq_init_or_mem (l : List Nat) (a : Nat) :
    l.foldl max a = a ∨ l.foldl max a ∈ l := by
  induction l generalizing a with
  | nil => exact Or.inl rfl
  | cons y ys ih =>
      rw [List.foldl_cons]
      rcases ih (max a y) with h | h
      · rcases Nat.le_total a y with hy | hy
        · rw [Nat.max_eq_right hy] at h ⊢
          exact Or.inr (by rw [h]; exact List.mem_cons_self _ _)
        · rw [Nat.max_eq_left hy] at h ⊢
          exact Or.inl h
      · exact Or.inr (List.mem_cons_of_mem _ h)

theorem mem_jsSetDedupAux (seen l : List Nat) (y : Nat) :
    y ∈ jsSetDedupAux seen l ↔ y ∈ l ∧ y ∉ seen := by
  induction l generalizing seen with
  | nil => simp [jsSetDedupAux]
  | cons x xs ih =>
      by_cases hx : x ∈ seen
      · simp only [jsSetDedupAux, if_pos hx, ih, List.mem_cons]
        constructor
        · rintro ⟨h1, h2⟩; exact ⟨Or.inr h1, h2⟩
        · rintro ⟨h1 | h1, h2⟩
          · exact absurd (h1 ▸ hx) h2
          · exact ⟨h1, h2⟩
      · simp only [jsSetDedupAux, if_neg hx, List.mem_cons, ih]
        constructor
        · rintro (rfl | ⟨h1, h2⟩)
          · exact ⟨Or.inl rfl, hx⟩
          · exact ⟨Or.inr h1, fun hy => h2 (Or.inr hy)⟩
        · rintro ⟨rfl | h1, h2⟩
          · exact Or.inl rfl
          · by_cases hyx : y = x
            · exact Or.inl hyx
            · refine Or.inr ⟨h1, fun hy => ?_⟩
              rcases hy with hyx2 | hy2
              · exact hyx hyx2
              · exact h2 hy2

theorem nodup_jsSetDedupAux (seen l : List Nat) :
    (jsSetDedupAux seen l).Nodup := by
  induction l generalizing seen with
  | nil => simp [jsSetDedupAux]
  | cons x xs ih =>
      by_cases hx : x ∈ seen
      · simpa only [jsSetDedupAux, if_pos hx] using ih seen
      · simp only [jsSetDedupAux, if_neg hx]
        refine List.nodup_cons.mpr ⟨?_, ih (x :: seen)⟩
        intro hmem
        exact ((mem_jsSetDedupAux _ _ _).mp hmem).2 (List.mem_cons_self x seen)

theorem toFinset_jsSetDedup (l : List Nat) :
    (jsSetDedup l).toFinset = l.toFinset := by
  ext y
  simp [jsSetDedup, List.mem_toFinset, mem_jsSetDedupAux]

theorem length_jsSetDedup (l : List Nat) :
    (jsSetDedup l).length = l.toFinset.card := by
  rw [← toFinset_jsSetDedup]
  exact (List.toFinset_card_of_nodup (nodup_jsSetDedupAux [] l)).symm

theorem length_jsSortInsert (x : Nat) (l : List Nat) :
    (jsSortInsert x l).length = l.length + 1 := by
  induction l with
  | nil => rfl
  | cons y ys ih => by_cases h : jsLtNat x y <;> simp [jsSortInsert, h, ih]

theorem length_jsSort (l : List Nat) : (jsSort l).length = l.length := by
  induction l with
  | nil => rfl
  | cons x xs ih =>
      simp only [jsSort, List.foldr_cons] at ih ⊢
      rw [length_jsSortInsert, ih]
      exact (List.length_cons _ _).symm

theorem length_filter_status_partition (forms : List Form) :
    (forms.filter (fun f => f.status = FormStatus.active)).length +
      (forms.filter (fun f => f.status = FormStatus.inactive)).length =
      forms.length := by
  induction forms with
  | nil => rfl
  | cons f t ih =>
      cases h : f.status <;>
        simp [List.filter_cons, h, List.length_cons] <;> omega

theorem lookupError_nil (fieldId : String) :
    lookupError [] fieldId = none := rfl

theorem lookupError_cons (p : String × String) (rest : List (String × String))
    (fieldId : String) :
    lookupError (p :: rest) fieldId =
      if p.1 = fieldId then some p.2 else lookupError rest fieldId := by
  by_cases h : p.1 = fieldId
  · rw [if_pos h]
    unfold lookupError
    rw [List.find?_cons_of_pos _ (by simp [h])]
    rfl
  · rw [if_neg h]
    unfold lookupError
    rw [List.find?_cons_of_neg _ (by simp [h])]

theorem lookupError_setError_self (errs : List (String × String))
    (fieldId msg : String) :
    lookupError (setError errs fieldId msg) fieldId = some msg := by
  induction errs with
  | nil => simp [setError, lookupError_cons]
  | cons p rest ih =>
      by_cases h : p.1 = fieldId
      · simp [setError, h, lookupError_cons]
      · simp [setError, h, lookupError_cons, ih]

theorem lookupError_setError_ne (errs : List (String × String))
    (fieldId otherId msg : String) (h : fieldId ≠ otherId) :
    lookupError (setError errs fieldId msg) otherId =
      lookupError errs otherId := by
  induction errs with
  | nil => simp [setError, lookupError_cons, lookupError_nil, h]
  | cons p rest ih =>
      by_cases hp : p.1 = fieldId
      · simp [setError, hp, lookupError_cons, h]
      · simp [setError, hp, lookupError_cons, ih]

theorem lookupError_validateFieldStep_ne (answers : List (String × Answer))
    (errs : List (String × String)) (g : FormField) (otherId : String)
    (h : g.id ≠ otherId) :
    lookupError (validateFieldStep answers errs g) otherId =
      lookupError errs otherId := by
  have key : ∀ e msg, lookupError (setError e g.id msg) otherId =
      lookupError e otherId :=
    fun e msg => lookupError_setError_ne e g.id otherId msg h
  unfold validateFieldStep
  by_cases c1 :
      (g.required && !(answerTruthy (lookupAnswer answers g.id))) = true <;>
  by_cases c2 :
      (g.type = FieldType.email && answerTruthy (lookupAnswer answers g.id))
        = true <;>
  by_cases c3 :
      (!(emailRegexTest (answerString
          ((lookupAnswer answers g.id).getD (Answer.str ""))))) = true <;>
  simp [c1, c2, c3, key]

theorem lookupError_validateFold_ne (answers : List (String × Answer))
    (fs : List FormField) (otherId : String) :
    ∀ errs : List (String × String), (∀ g ∈ fs, g.id ≠ otherId) →
      lookupError (fs.foldl (validateFieldStep answers) errs) otherId =
        lookupError errs otherId := by
  induction fs with
  | nil => intro errs _; rfl
  | cons g rest ih =>
      intro errs h
      rw [List.foldl_cons,
        ih _ (fun x hx => h x (List.mem_cons_of_mem _ hx)),
        lookupError_validateFieldStep_ne answers errs g otherId
          (h g (List.mem_cons_self _ _))]

theorem required_error_recorded (answers : List (String × Answer))
    (fs : List FormField) (f : FormField) (hreq : f.required = true)
    (hblank : answerTruthy (lookupAnswer answers f.id) = false) :
    ∀ errs : List (String × String),
      (fs.map (fun g => g.id)).Nodup → f ∈ fs →
      lookupError (fs.foldl (validateFieldStep answers) errs) f.id =
        some (f.label ++ " is required") := by
  induction fs with
  | nil => intro errs _ hf; cases hf
  | cons g rest ih =>
      intro errs hnd hf
      have hnd2 : (g.id :: rest.map (fun x => x.id)).Nodup := by
        simpa using hnd
      rw [List.foldl_cons]
      rcases List.mem_cons.mp hf with rfl | hf'
      · have hstep : lookupError (validateFieldStep answers errs f) f.id =
            some (f.label ++ " is required") := by
          simp [validateFieldStep, hreq, hblank, lookupError_setError_self]
        have hrest : ∀ x ∈ rest, x.id ≠ f.id := by
          intro x hx heq
          exact (List.nodup_cons.mp hnd2).1
            (List.mem_map.mpr ⟨x, hx, heq⟩)
        rw [lookupError_validateFold_ne answers rest f.id _ hrest, hstep]
      · exact ih (validateFieldStep answers errs g)
          (by simpa using (List.nodup_cons.mp hnd2).2) hf'

theorem email_error_recorded (answers : List (String × Answer))
    (fs : List FormField) (f : FormField)
    (hty : f.type = FieldType.email)
    (hpresent : answerTruthy (lookupAnswer answers f.id) = true)
    (hbad : emailRegexTest
      (answerString ((lookupAnswer answers f.id).getD (Answer.str ""))) =
        false) :
    ∀ errs : List (String × String),
      (fs.map (fun g => g.id)).Nodup → f ∈ fs →
      lookupError (fs.foldl (validateFieldStep answers) errs) f.id =
        some "Please enter a valid email address" := by
  induction fs with
  | nil => intro errs _ hf; cases hf
  | cons g rest ih =>
      intro errs hnd hf
      have hnd2 : (g.id :: rest.map (fun x => x.id)).Nodup := by
        simpa using hnd
      rw [List.foldl_cons]
      rcases List.mem_cons.mp hf with rfl | hf'
      · have hstep : lookupError (validateFieldStep answers errs f) f.id =
            some "Please enter a valid email address" := by
          simp [validateFieldStep, hty, hpresent, hbad,
            lookupError_setError_self]
        have hrest : ∀ x ∈ rest, x.id ≠ f.id := by
          intro x hx heq
          exact (List.nodup_cons.mp hnd2).1
            (List.mem_map.mpr ⟨x, hx, heq⟩)
        rw [lookupError_validateFold_ne answers rest f.id _ hrest, hstep]
      · exact ih (validateFieldStep answers errs g)
          (by simpa using (List.nodup_cons.mp hnd2).2) hf'

theorem cons_getElem_eraseIdx_perm {α : Type} (l : List α) (i : Nat)
    (hi : i < l.length) : (l[i] :: l.eraseIdx i).Perm l := by
  rw [List.eraseIdx_eq_take_drop_succ]
  refine List.perm_middle.symm.trans ?_
  have h : l.take i ++ l[i] :: l.drop (i + 1) = l := by
    rw [List.getElem_cons_drop _ _ hi, List.take_append_drop]
  rw [h]

theorem insertIdx_getElem_eraseIdx {α : Type} (l : List α) (i : Nat)
    (hi : i < l.length) : List.insertIdx i l[i] (l.eraseIdx i) = l := by
  induction l generalizing i with
  | nil => exact absurd hi (Nat.not_lt_zero i)
  | cons a t ih =>
      cases i with
      | zero => rfl
      | succ n =>
          have hn : n < t.length := Nat.lt_of_succ_lt_succ hi
          show List.insertIdx (n + 1) (a :: t)[n + 1] (a :: t.eraseIdx n) =
            a :: t
          rw [List.insertIdx_succ_cons, List.getElem_cons_succ]
          exact congrArg (a :: ·) (ih n hn)

/-! ## Claim theorems -/

/-- C1 (counterexample): the claim states that in *both* the builder and the
respondent flow the derived total page count equals the maximum `pageNumber`
across the form's fields.  For a form with a single field on page 2 the
builder derives 2 (the maximum), but the respondent flow derives
`[...new Set(pages)].length || 1 = 1`, the number of *distinct* page numbers
— not the maximum. -/
theorem totalPages_respondent_counterexample :
    exFieldC1.pageNumber = 2 ∧
    builderTotalPages [exFieldC1] = 2 ∧
    publicTotalPages [exFieldC1] = 1 ∧
    publicTotalPages [exFieldC1] ≠ 2 := by decide

/-- C1 (amended): the builder's total page count is the maximum `pageNumber`
across the fields (1 for a form with no fields), while the respondent flow's
total page count is the number of *distinct* `pageNumber` values across the
fields, floored at 1.  The two agree only when the page numbers have no
gaps. -/
theorem totalPages_characterization (fields : List FormField)
    (h1 : ∀ f ∈ fields, 1 ≤ f.pageNumber) :
    (fields ≠ [] →
      builderTotalPages fields ∈ fields.map (fun f => f.pageNumber) ∧
      ∀ f ∈ fields, f.pageNumber ≤ builderTotalPages fields) ∧
    (fields = [] → builderTotalPages fields = 1) ∧
    publicTotalPages fields =
      max 1 ((fields.map (fun f => f.pageNumber)).toFinset.card) := by
  refine ⟨?_, ?_, ?_⟩
  · intro hne
    have hempty : fields.isEmpty = false := by
      cases fields with
      | nil => exact absurd rfl hne
      | cons a t => rfl
    have hval : builderTotalPages fields =
        (fields.map (fun f => f.pageNumber)).foldl max 1 := by
      simp [builderTotalPages, hempty]
    constructor
    · rcases foldl_max_eq_init_or_mem (fields.map (fun f => f.pageNumber)) 1 with
        h | h
      · cases fields with
        | nil => exact absurd rfl hne
        | cons f t =>
            have hmem : f.pageNumber ∈ (f :: t).map (fun f => f.pageNumber) :=
              List.mem_map.mpr ⟨f, List.mem_cons_self f t, rfl⟩
            have hle : f.pageNumber ≤ 1 := by
              have := mem_le_foldl_max ((f :: t).map (fun g => g.pageNumber)) 1
                f.pageNumber hmem
              omega
            have hge : 1 ≤ f.pageNumber := h1 f (List.mem_cons_self f t)
            have heq : f.pageNumber = 1 := Nat.le_antisymm hle hge
            rw [hval, h, ← heq]
            exact hmem
      · rw [hval]; exact h
    · intro f hf
      rw [hval]
      exact mem_le_foldl_max _ 1 f.pageNumber (List.mem_map.mpr ⟨f, hf, rfl⟩)
  · intro he
    subst he
    rfl
  · have hlen : (publicPages fields).length =
        ((fields.map (fun f => f.pageNumber)).toFinset.card) := by
      rw [publicPages, length_jsSort, length_jsSetDedup]
    rw [publicTotalPages, hlen]
    rcases Nat.eq_zero_or_pos ((fields.map (fun f => f.pageNumber)).toFinset.card)
      with h | h
    · simp [h]
    · rw [if_neg (by omega), Nat.max_eq_right h]

/-- C1 (witness for the amended theorem), instantiated at the single-field
form on page 2. -/
theorem totalPages_characterization_witness :
    builderTotalPages [exFieldC1] ∈ [exFieldC1].map (fun f => f.pageNumber) ∧
    publicTotalPages [exFieldC1] =
      max 1 (([exFieldC1].map (fun f => f.pageNumber)).toFinset.card) := by
  have h := totalPages_characterization [exFieldC1] (by decide)
  exact ⟨(h.1 (by decide)).1, h.2.2⟩

/-- C2 (evaluation at the failing input): the active builder page 2 of
`exFormC2` is empty and the form has pages 1, 3 and 4.  The claim (and the
handler's own comment, "moving all higher page fields down") requires the
resulting page numbers to be `[1, 2, 3]`.  Because every `updateField` call
in the loop rebuilds the whole field array from the same stale render
snapshot, the second call overwrites the first and the actual result is
`[1, 3, 3]`: the field on page 3 is never decremented. -/
theorem removePage_stale_overwrite :
    ((removePageClick 100 2 exStoreC2).store.forms.map
        (fun f => f.fields.map (fun g => g.pageNumber))) = [[1, 3, 3]] ∧
    ((removePageClick 100 2 exStoreC2).store.forms.map
        (fun f => f.fields.map (fun g => g.pageNumber))) ≠ [[1, 2, 3]] ∧
    (removePageClick 100 2 exStoreC2).toastError = none := by decide

/-- C3: removing a page that still carries at least one field is rejected
with the "Cannot remove page" toast, and the whole store — fields, page
numbers and hence the derived total page count — is returned unchanged. -/
theorem removePage_nonempty_page_rejected (now p : Nat) (st : Store)
    (cf : Form) (hcf : st.currentForm = some cf)
    (hne : ∃ f ∈ cf.fields, f.pageNumber = p) :
    removePageClick now p st =
      { store := st, builderPage := p,
        toastError := some "Cannot remove page" } := by
  obtain ⟨f, hf, hfp⟩ := hne
  have hpos : 0 < (builderCurrentPageFields cf.fields p).length := by
    refine List.length_pos.mpr (List.ne_nil_of_mem (a := f) ?_)
    exact List.mem_filter.mpr ⟨hf, by simp [hfp]⟩
  simp [removePageClick, hcf, hpos]

/-- C3 (witness): rejecting removal of non-empty page 1 of `exFormC3`. -/
theorem removePage_nonempty_page_rejected_witness :
    removePageClick 5 1 exStoreC3 =
      { store := exStoreC3, builderPage := 1,
        toastError := some "Cannot remove page" } :=
  removePage_nonempty_page_rejected 5 1 exStoreC3 exFormC3 rfl
    ⟨{ id := "f1", type := FieldType.text, label := "A", required := false,
       pageNumber := 1 }, by decide, by decide⟩

/-- C7: `submitResponse` appends exactly one response carrying the given
form id, answers and files, with identifier `Date.now().toString()` and the
current timestamp; the forms collection and the current-form reference are
untouched.  The statement quantifies over *every* `formId` and `answers` —
including ids that match no stored form — so no validation of the answers
(or of the form's existence) takes place.  Under the hypothesis that no
stored response already carries the id derived from the current clock, the
new identifier is fresh. -/
theorem submitResponse_spec (now : Nat) (formId : String)
    (answers : List (String × Answer)) (files : Option (List String))
    (st : Store) (hfresh : ∀ r ∈ st.responses, r.id ≠ Nat.repr now) :
    (submitResponse now formId answers files st).responses =
      st.responses ++
        [{ id := Nat.repr now, formId := formId, answers := answers,
           files := files, submittedAt := now }] ∧
    (submitResponse now formId answers files st).forms = st.forms ∧
    (submitResponse now formId answers files st).currentForm =
      st.currentForm ∧
    Nat.repr now ∉ st.responses.map (fun r => r.id) := by
  refine ⟨rfl, rfl, rfl, ?_⟩
  intro hmem
  obtain ⟨r, hr, hid⟩ := List.mem_map.mp hmem
  exact hfresh r hr hid

/-- C7 (witness): submitting to the empty store, with an id that matches no
form. -/
theorem submitResponse_spec_witness :
    (submitResponse 42 "no-such-form" [("f1", Answer.str "x")] none
        exStoreC7).responses =
      exStoreC7.responses ++
        [{ id := Nat.repr 42, formId := "no-such-form",
           answers := [("f1", Answer.str "x")], files := none,
           submittedAt := 42 }] ∧
    (submitResponse 42 "no-such-form" [("f1", Answer.str "x")] none
        exStoreC7).forms = exStoreC7.forms :=
  ⟨(submitResponse_spec 42 "no-such-form" [("f1", Answer.str "x")] none
      exStoreC7 (by decide)).1,
   (submitResponse_spec 42 "no-such-form" [("f1", Answer.str "x")] none
      exStoreC7 (by decide)).2.1⟩

/-- C9: `deleteForm` keeps exactly the forms whose id differs from the
deleted one (in their original order, unchanged), clears the current-form
reference precisely when it pointed at the deleted form, and leaves the
responses collection — including responses of the deleted form — intact. -/
theorem deleteForm_spec (formId : String) (st : Store) :
    (∀ f : Form,
      f ∈ (deleteForm formId st).forms ↔ f ∈ st.forms ∧ f.id ≠ formId) ∧
    (deleteForm formId st).forms.Sublist st.forms ∧
    (∀ cf : Form, st.currentForm = some cf → cf.id = formId →
      (deleteForm formId st).currentForm = none) ∧
    (∀ cf : Form, st.currentForm = some cf → cf.id ≠ formId →
      (deleteForm formId st).currentForm = some cf) ∧
    (deleteForm formId st).responses = st.responses := by
  refine ⟨?_, ?_, ?_, ?_, rfl⟩
  · intro f
    simp [deleteForm, List.mem_filter]
  · exact List.filter_sublist _
  · intro cf hcf heq
    simp [deleteForm, hcf, heq]
  · intro cf hcf hne
    simp [deleteForm, hcf, hne]

/-- C9 (witness): deleting form "1" from the two-form store clears the
current-form reference, keeps form "2", and keeps the orphaned response. -/
theorem deleteForm_spec_witness :
    (deleteForm "1" exStoreC9).responses = exStoreC9.responses ∧
    (deleteForm "1" exStoreC9).currentForm = none ∧
    (exFormC9b ∈ (deleteForm "1" exStoreC9).forms ↔
      exFormC9b ∈ exStoreC9.forms ∧ exFormC9b.id ≠ "1") :=
  ⟨(deleteForm_spec "1" exStoreC9).2.2.2.2,
   (deleteForm_spec "1" exStoreC9).2.2.1 exFormC9 rfl rfl,
   (deleteForm_spec "1" exStoreC9).1 exFormC9b⟩

/-- C10: in every store state the derived dashboard statistics partition the
forms — `activeForms` counts the forms with status active, `inactiveForms`
those with status inactive, the two sum to `totalForms` (each form's status
is exactly one of the two), and `totalResponses` counts the stored
responses.  Because the statistics are recomputed from the state, the
invariant holds after every store operation. -/
theorem stats_invariant (st : Store) :
    (statsOf st).activeForms + (statsOf st).inactiveForms =
      (statsOf st).totalForms ∧
    (statsOf st).totalForms = st.forms.length ∧
    (statsOf st).activeForms =
      (st.forms.filter (fun f => f.status = FormStatus.active)).length ∧
    (statsOf st).inactiveForms =
      (st.forms.filter (fun f => f.status = FormStatus.inactive)).length ∧
    (statsOf st).totalResponses = st.responses.length :=
  ⟨length_filter_status_partition st.forms, rfl, rfl, rfl, rfl⟩

/-- C4: for valid indices `i, j`, `reorderFields` performs a single-element
move — the result is a permutation of the input (same multiset), deleting
the moved element from its new position recovers exactly the original
sequence without the moved element (so the relative order of all other
elements is preserved), and moving the element back restores the original
sequence. -/
theorem reorderFields_spec (l : List FormField) (i j : Nat)
    (hi : i < l.length) (hj : j < l.length) :
    (reorderFields l i j).Perm l ∧
    (reorderFields l i j).eraseIdx j = l.eraseIdx i ∧
    reorderFields (reorderFields l i j) j i = l := by
  have hget : l[i]? = some l[i] := List.getElem?_eq_getElem hi
  have hunfold : reorderFields l i j = List.insertIdx j l[i] (l.eraseIdx i) := by
    simp [reorderFields, List.get?_eq_getElem?, hget]
  have hlen_erase : (l.eraseIdx i).length = l.length - 1 := by
    rw [List.length_eraseIdx]
    simp [hi]
  have hj' : j ≤ (l.eraseIdx i).length := by omega
  refine ⟨?_, ?_, ?_⟩
  · rw [hunfold]
    exact (List.perm_insertIdx _ _ hj').trans (cons_getElem_eraseIdx_perm l i hi)
  · rw [hunfold, List.eraseIdx_insertIdx]
  · rw [hunfold]
    have hrlen : (List.insertIdx j l[i] (l.eraseIdx i)).length = l.length := by
      rw [List.length_insertIdx _ _ hj', hlen_erase]
      omega
    have hjr : j < (List.insertIdx j l[i] (l.eraseIdx i)).length := by omega
    have hrget : (List.insertIdx j l[i] (l.eraseIdx i))[j]? = some l[i] := by
      rw [List.getElem?_eq_getElem hjr]
      exact congrArg some (List.getElem_insertIdx_self _ _ _ hj')
    show reorderFields (List.insertIdx j l[i] (l.eraseIdx i)) j i = l
    simp only [reorderFields, List.get?_eq_getElem?, hrget]
    rw [List.eraseIdx_insertIdx]
    exact insertIdx_getElem_eraseIdx l i hi

/-- C4 (witness): moving the first of three fields to the back and moving it
back again. -/
theorem reorderFields_spec_witness :
    (reorderFields exFieldsC4 0 2).Perm exFieldsC4 ∧
    (reorderFields exFieldsC4 0 2).eraseIdx 2 = exFieldsC4.eraseIdx 0 ∧
    reorderFields (reorderFields exFieldsC4 0 2) 2 0 = exFieldsC4 :=
  reorderFields_spec exFieldsC4 0 2 (by decide) (by decide)

/-- C5 (counterexample): the claim as stated covers every required field with
an "empty or absent answer", but an empty *array* answer — the state a
required checkbox is left in after its selection is cleared — is truthy in
JavaScript, so `!answers[field.id]` does not fire: `validateCurrentPage`
records no error and "next" advances from page 1 to page 2 instead of
blocking with "Pick one is required". -/
theorem requiredValidation_empty_list_counterexample :
    exFieldC5cb.required = true ∧
    exFieldC5cb.pageNumber = exFlowC5.currentPage ∧
    lookupAnswer exFlowC5.answers "c1" = some (Answer.list []) ∧
    validateCurrentPage exFormC5cb.fields 1 exFlowC5.answers = [] ∧
    lookupError (handleNext exFormC5cb exFlowC5).1.errors "c1" = none ∧
    (handleNext exFormC5cb exFlowC5).1.currentPage = 2 ∧
    (handleNext exFormC5cb exFlowC5).1.currentPage ≠ exFlowC5.currentPage := by
  decide

/-- C5 (amended): when some field on the respondent's current page is
required and its answer is absent or an empty string (the code's
`!answers[field.id]` test — empty arrays, such as an emptied checkbox
selection, count as present and trigger no error), `handleNext` leaves
`currentPage` unchanged, does not submit, and the stored errors map every
such field — not just the first — to "`<label>` is required": the whole page
is validated in one pass.  The uniqueness hypothesis on field ids is the form
invariant stated by the specification. -/
theorem requiredValidation_blocks_next (form : Form) (st : FlowState)
    (hnd : (form.fields.map (fun g => g.id)).Nodup)
    (hex : ∃ f ∈ form.fields, f.pageNumber = st.currentPage ∧
      f.required = true ∧
      answerTruthy (lookupAnswer st.answers f.id) = false) :
    (handleNext form st).1.currentPage = st.currentPage ∧
    (handleNext form st).1.isSubmitted = st.isSubmitted ∧
    (handleNext form st).2 = none ∧
    ∀ f ∈ form.fields, f.pageNumber = st.currentPage → f.required = true →
      answerTruthy (lookupAnswer st.answers f.id) = false →
      lookupError (handleNext form st).1.errors f.id =
        some (f.label ++ " is required") := by
  have hndp : ((publicCurrentFields form.fields st.currentPage).map
      (fun g => g.id)).Nodup :=
    List.Nodup.sublist (List.Sublist.map _ (List.filter_sublist _)) hnd
  have hkey : ∀ f ∈ form.fields, f.pageNumber = st.currentPage →
      f.required = true →
      answerTruthy (lookupAnswer st.answers f.id) = false →
      lookupError
          (validateCurrentPage form.fields st.currentPage st.answers) f.id =
        some (f.label ++ " is required") := by
    intro f hf hp hr hb
    exact required_error_recorded st.answers _ f hr hb [] hndp
      (List.mem_filter.mpr ⟨hf, by simp [hp]⟩)
  have hne : (validateCurrentPage form.fields st.currentPage
      st.answers).isEmpty = false := by
    rcases hex with ⟨f0, h1, h2, h3, h4⟩
    have hv := hkey f0 h1 h2 h3 h4
    cases hE : validateCurrentPage form.fields st.currentPage st.answers with
    | nil => rw [hE] at hv; simp [lookupError_nil] at hv
    | cons a t => rfl
  have hresult : handleNext form st =
      ({ st with errors :=
          validateCurrentPage form.fields st.currentPage st.answers }, none) := by
    simp only [handleNext]
    rw [hne]
    simp
  refine ⟨by rw [hresult], by rw [hresult], by rw [hresult], ?_⟩
  intro f hf hp hr hb
  rw [hresult]
  exact hkey f hf hp hr hb

/-- C5 (witness): a single required "Name" field on page 1, never answered:
"next" keeps the respondent on page 1 and records "Name is required". -/
theorem requiredValidation_blocks_next_witness :
    (handleNext exFormC5 initFlowState).1.currentPage = 1 ∧
    (handleNext exFormC5 initFlowState).2 = none ∧
    lookupError (handleNext exFormC5 initFlowState).1.errors "f1" =
      some "Name is required" := by
  have h := requiredValidation_blocks_next exFormC5 initFlowState (by decide)
    ⟨exFieldC5, by decide, by decide, by decide, by decide⟩
  exact ⟨h.1, h.2.2.1, h.2.2.2 exFieldC5 (by decide) (by decide) (by decide)
    (by decide)⟩

/-- C8: during page validation, an email-type field with a present answer
failing the pattern `/^[^\s@]+@[^\s@]+\.[^\s@]+$/` receives the field-level
error "Please enter a valid email address"; in particular `"not-an-email"`
fails the pattern and `"a@b.co"` passes it. -/
theorem emailValidation_error (fields : List FormField) (p : Nat)
    (answers : List (String × Answer)) (f : FormField)
    (hnd : (fields.map (fun g => g.id)).Nodup) (hf : f ∈ fields)
    (hp : f.pageNumber = p) (hty : f.type = FieldType.email)
    (hpresent : answerTruthy (lookupAnswer answers f.id) = true)
    (hbad : emailRegexTest
      (answerString ((lookupAnswer answers f.id).getD (Answer.str ""))) =
        false) :
    lookupError (validateCurrentPage fields p answers) f.id =
      some "Please enter a valid email address" ∧
    emailRegexTest "not-an-email" = false ∧
    emailRegexTest "a@b.co" = true := by
  refine ⟨?_, by decide, by decide⟩
  have hndp : ((publicCurrentFields fields p).map (fun g => g.id)).Nodup :=
    List.Nodup.sublist (List.Sublist.map _ (List.filter_sublist _)) hnd
  exact email_error_recorded answers _ f hty hpresent hbad [] hndp
    (List.mem_filter.mpr ⟨hf, by simp [hp]⟩)

/-- C6 (helper): once the session sits on the unavailable page, no respondent
action changes the state or emits a submit call. -/
theorem runSession_unavailable (formLookup : Option Form)
    (acts : List RespondentAction) :
    runSession formLookup SessionState.unavailable acts =
      (SessionState.unavailable, []) := by
  suffices h : ∀ (acc : List SubmitEvent),
      acts.foldl (fun p a =>
        let r := sessionStep formLookup p.1 a
        (r.1, p.2 ++ r.2.toList)) (SessionState.unavailable, acc) =
      (SessionState.unavailable, acc) from h []
  induction acts with
  | nil => intro acc; rfl
  | cons a rest ih =>
      intro acc
      have hstep : sessionStep formLookup SessionState.unavailable a =
          (SessionState.unavailable, none) := by
        cases formLookup <;> rfl
      rw [List.foldl_cons]
      simp only [hstep, Option.toList_none, List.append_nil]
      exact ih acc

/-- C6: for a form whose status is inactive, the session is short-circuited
to the unavailable page before any flow state exists; whatever actions the
respondent attempts, the session never enters the filling flow, no
`submitResponse` call is emitted, and the store's response collection is
unchanged — no `Response` is recorded for the form. -/
theorem inactiveForm_rejects_submission (form : Form)
    (acts : List RespondentAction) (now : Nat) (store : Store)
    (h : form.status = FormStatus.inactive) :
    initSession (some form) = SessionState.unavailable ∧
    runSession (some form) (initSession (some form)) acts =
      (SessionState.unavailable, []) ∧
    applySubmitEvents now store
      (runSession (some form) (initSession (some form)) acts).2 = store := by
  have hinit : initSession (some form) = SessionState.unavailable := by
    simp [initSession, h]
  refine ⟨hinit, ?_, ?_⟩
  · rw [hinit]
    exact runSession_unavailable _ _
  · rw [hinit, runSession_unavailable]
    rfl

/-- C6 (witness): the inactive example form, a respondent who tries to click
next anyway, and the one-form store. -/
theorem inactiveForm_rejects_submission_witness :
    initSession (some exFormC6) = SessionState.unavailable ∧
    runSession (some exFormC6) (initSession (some exFormC6))
        [RespondentAction.next] =
      (SessionState.unavailable, []) ∧
    applySubmitEvents 7 exStoreC6
      (runSession (some exFormC6) (initSession (some exFormC6))
        [RespondentAction.next]).2 = exStoreC6 :=
  inactiveForm_rejects_submission exFormC6 [RespondentAction.next] 7 exStoreC6
    (by decide)

/-- C8 (witness): the email field answered `"not-an-email"` gets the email
error. -/
theorem emailValidation_error_witness :
    lookupError
        (validateCurrentPage [exFieldC8] 1 [("e1", Answer.str "not-an-email")])
        "e1" =
      some "Please enter a valid email address" ∧
    emailRegexTest "not-an-email" = false ∧
    emailRegexTest "a@b.co" = true :=
  emailValidation_error [exFieldC8] 1 [("e1", Answer.str "not-an-email")]
    exFieldC8 (by decide) (by decide) (by decide) (by decide) (by decide)
    (by decide)

end FormWeaver
